import Mathlib

/-!
Verification development for `immich_auto_album.py` (Immich album creator
driven by a Google-Photos-archiver index).

The Python source is shallowly embedded: every remote HTTP interaction is
represented by the status code of its response (a `Nat`) or by an explicit
record of the request that was issued, exceptions are represented by an
`Except` monad over an explicit exception-class type, and module-level
mutable configuration becomes explicit parameters.  Each definition below
names the Python function it embeds.
-/

namespace ImmichAutoAlbum

/-! ## Exception classes

The Python module imports `HTTPError` from `urllib.error` (line 15):

    from urllib.error import HTTPError

while `requests.Response.raise_for_status()` raises
`requests.exceptions.HTTPError`.  These are two distinct exception classes
and neither is a subclass of the other (`requests.exceptions.HTTPError`
derives from `RequestException` which derives from `OSError`;
`urllib.error.HTTPError` derives from `URLError` which derives from
`OSError`).  Consequently an `except HTTPError` clause in this module
catches only `urllib.error.HTTPError` and never the exception actually
raised by `raise_for_status`.  The embedding keeps the two classes apart.
-/

inductive Exc where
  /-- the class `requests.exceptions.HTTPError`, raised by `Response.raise_for_status` -/
  | reqHTTPError : Exc
  /-- the class `urllib.error.HTTPError`, the one bound to the name `HTTPError` in the module -/
  | urllibHTTPError : Exc
  /-- the class `AssertionError`, raised by a failing `assert` statement -/
  | assertionError : Exc
deriving DecidableEq, Repr

/-- Whether an exception instance is caught by an `except HTTPError` clause of
this module, i.e. whether its class is (a subclass of) `urllib.error.HTTPError`. -/
def caughtByExceptHTTPError : Exc → Bool
  | Exc.urllibHTTPError => true
  | _ => false

/-- Embedding of `requests.Response.raise_for_status()`: raises
`requests.exceptions.HTTPError` exactly when the status code is a
4xx client error or a 5xx server error, otherwise returns normally. -/
def raise_for_status (status : Nat) : Except Exc Unit :=
  if 400 ≤ status ∧ status < 600 then Except.error Exc.reqHTTPError else Except.ok ()

/-- Embedding of `check_api_response` (immich_auto_album.py lines 930-953):

    try:
        response.raise_for_status()
    except HTTPError:
        ... logging ...
    response.raise_for_status()

The `except HTTPError` clause refers to `urllib.error.HTTPError`, so the
exception raised by the first `raise_for_status()` (always a
`requests.exceptions.HTTPError`) is never caught there and propagates. -/
def check_api_response (status : Nat) : Except Exc Unit :=
  match raise_for_status status with
  | Except.error e =>
      if caughtByExceptHTTPError e then
        -- the body of the except clause only logs; then the second raise_for_status runs
        raise_for_status status
      else
        Except.error e
  | Except.ok () => raise_for_status status

/-- Embedding of `delete_album` (lines 386-412).  The HTTP DELETE response is
represented by its status code.

    r = requests.delete(...)
    try:
        check_api_response(r)
        return True
    except HTTPError:
        logging.error(...)
        return False

Again `except HTTPError` catches only `urllib.error.HTTPError`. -/
def delete_album (status : Nat) : Except Exc Bool :=
  match check_api_response status with
  | Except.ok () => Except.ok true
  | Except.error e =>
      if caughtByExceptHTTPError e then Except.ok false else Except.error e

theorem check_api_response_ok_of_2xx (status : Nat) (h : status < 400) :
    check_api_response status = Except.ok () := by
  simp [check_api_response, raise_for_status, Nat.not_le.mpr h]

theorem check_api_response_err (status : Nat) (h₁ : 400 ≤ status) (h₂ : status < 600) :
    check_api_response status = Except.error Exc.reqHTTPError := by
  simp [check_api_response, raise_for_status, h₁, h₂, caughtByExceptHTTPError]

/-- C4: the claim states that `delete_album` returns `False` (with an error
logged) on a failed delete and never propagates an exception to its caller
when the HTTP status is not 2xx.  On the code this is false: a non-2xx
status makes `check_api_response` raise `requests.exceptions.HTTPError`,
which the `except HTTPError` clause (bound to `urllib.error.HTTPError`)
does not catch, so the exception propagates out of `delete_album` instead
of producing the documented `False` return.  Evaluated here at status 404:
the call neither returns `True` nor `False` but raises. -/
theorem delete_album_propagates_on_404 :
    delete_album 404 = Except.error Exc.reqHTTPError ∧
    (∀ b : Bool, delete_album 404 ≠ Except.ok b) := by
  constructor
  · rfl
  · intro b h
    cases h

/-! ## The main reconciliation loop (mode CREATE), lines 1288-1316

Per processed album the loop runs (after creation and membership addition)
the property-convergence step and the sharing-convergence step:

    if update_album_props_mode > 0 or (album in created_albums):
        try:
            update_album_properties(album)
        except HTTPError as e:
            logging.error(...)
    if update_album_props_mode == 2 or (album in created_albums):
        update_album_shared_state(album, True)

The embedding below models the slice relevant to failure propagation, for a
run in which both steps execute for every album (e.g.
`--update-album-props-mode 2`).  Each remote call is represented by the
status code of its response: `propPatchStatus` is the status of the PATCH
issued by `update_album_properties` (via `check_api_response`), and
`shareFetchStatus` the status of the GET issued by `fetch_album_info`
inside `update_album_shared_state` (also via `check_api_response`; that
call is outside every try/except in `update_album_shared_state`). -/

structure AlbumStepStatuses where
  propPatchStatus : Nat
  shareFetchStatus : Nat
deriving DecidableEq, Repr

/-- Embedding of the failure behaviour of `update_album_properties`
(lines 857-903): its PATCH response is funnelled through
`check_api_response`, so a non-2xx status raises. -/
def update_album_properties_call (patchStatus : Nat) : Except Exc Unit :=
  check_api_response patchStatus

/-- Embedding of the failure behaviour of `update_album_shared_state`
(lines 497-577) as seen from the main loop: the `fetch_album_info` call
(line 530) runs outside every internal try/except, so its failure
propagates out of the function. -/
def update_album_shared_state_fetch (fetchStatus : Nat) : Except Exc Unit :=
  check_api_response fetchStatus

/-- Embedding of the main reconciliation loop body (lines 1304-1315) iterated
over the (name-sorted) desired albums.  Returns the number of albums whose
iteration ran to completion; an uncaught exception aborts the whole loop.
The `except HTTPError` clause around the property-update step catches only
`urllib.error.HTTPError` (see `Exc`). -/
def reconcile_albums : List AlbumStepStatuses → Except Exc Nat
  | [] => Except.ok 0
  | st :: rest => do
      -- try: update_album_properties(album) / except HTTPError as e: logging.error(...)
      (match update_album_properties_call st.propPatchStatus with
       | Except.ok () => pure ()
       | Except.error e =>
           if caughtByExceptHTTPError e then pure () else throw e)
      -- update_album_shared_state(album, True) — not wrapped in any try/except
      update_album_shared_state_fetch st.shareFetchStatus
      let n ← reconcile_albums rest
      pure (n + 1)

/-- C1: the claim states that a failure in any per-album convergence step
(property update, sharing update) is caught and logged and the loop
proceeds to the next album.  On the code this fails in both steps: the
`except HTTPError` around `update_album_properties` is bound to
`urllib.error.HTTPError` while the raised exception is
`requests.exceptions.HTTPError`, so it is never caught; and the
`update_album_shared_state` call is not wrapped at all.  Evaluated on a
two-album run: a 500 on the first album's property PATCH, or a 503 on its
sharing `fetch_album_info` GET, aborts the run with the uncaught exception
and the second album is never processed, whereas an all-2xx run completes
both albums. -/
theorem reconcile_loop_aborts_on_album_failure :
    reconcile_albums [⟨500, 200⟩, ⟨200, 200⟩] = Except.error Exc.reqHTTPError ∧
    reconcile_albums [⟨200, 503⟩, ⟨200, 200⟩] = Except.error Exc.reqHTTPError ∧
    reconcile_albums [⟨200, 200⟩, ⟨200, 200⟩] = Except.ok 2 := by
  refine ⟨rfl, rfl, rfl⟩

/-! ## Sharing convergence: `update_album_shared_state` (lines 497-577)

Python `dict`s preserve insertion order; they are embedded as association
lists where `dictInsert` updates an existing key in place and appends a new
key at the end, exactly the behaviour of `d[k] = v`. -/

structure ShareEntry where
  user : String
  role : String
deriving DecidableEq, Repr

structure User where
  id : String
  name : String
  email : String
deriving DecidableEq, Repr

/-- Embedding of `d[k] = v` on an insertion-ordered Python dict. -/
def dictInsert {α : Type} (k : String) (v : α) : List (String × α) → List (String × α)
  | [] => [(k, v)]
  | (k₀, v₀) :: rest =>
      if k₀ = k then (k₀, v) :: rest else (k₀, v₀) :: dictInsert k v rest

/-- Embedding of `d.get(k)` / `k in d` lookup on the dict embedding. -/
def dictGet {α : Type} (k : String) (d : List (String × α)) : Option α :=
  (d.find? (fun p => p.1 == k)).map Prod.snd

/-- Embedding of the idiom at lines 543-545: `if not k in d: d[k] = []` then
`d[k].append(v)` — append `v` to the list stored under `k`, creating the
entry at the end of the dict if missing. -/
def dictAppendToList (k : String) (v : String) : List (String × List String) → List (String × List String)
  | [] => [(k, [v])]
  | (k₀, vs) :: rest =>
      if k₀ = k then (k₀, vs ++ [v]) :: rest else (k₀, vs) :: dictAppendToList k v rest

/-- Embedding of `find_user_by_name_or_email` (lines 1065-1086): first user in
the list whose `name` or `email` equals the argument. -/
def find_user_by_name_or_email (name_or_email : String) (user_list : List User) : Option User :=
  user_list.find? (fun u => name_or_email == u.name || name_or_email == u.email)

/-- One remote sharing mutation issued by `update_album_shared_state`. -/
inductive ShareCall where
  /-- `update_album_share_user_role(album_id, user_id, role)` -/
  | updateRole (userId : String) (role : String) : ShareCall
  /-- `unshare_album_with_user(album_id, user_id)` -/
  | unshare (userId : String) : ShareCall
  /-- `share_album_with_user_and_role(album_id, user_ids, role)` -/
  | shareGroup (userIds : List String) (role : String) : ShareCall
deriving DecidableEq, Repr

/-- Embedding of `update_album_shared_state(album_to_share, unshare_users)`
(lines 497-577) as the ordered list of sharing mutations it issues.

The module-level globals it reads become explicit parameters:
`album_global_share_with` is `album.share_with` — the loop at line 517 reads
the module-level variable `album`, NOT the `album_to_share` parameter —
and `users` is the module-level user list.  The parameter field
`album_to_share_share_with` (`album_to_share.share_with`) is carried here
to show that the source never consults it; `album_to_share` is only used
for its `id` and final name.  `album_users_actual` is the
`albumUsers` list returned by `fetch_album_info(album_to_share.id)` as
(user id, role) pairs.  Per-call HTTP responses are taken as successful;
the claim concerns which calls are issued. -/
def update_album_shared_state_calls
    (album_global_share_with : List ShareEntry)
    (album_to_share_share_with : List ShareEntry)
    (users : List User)
    (album_users_actual : List (String × String))
    (unshare_users : Bool) : List ShareCall :=
  -- share_users_to_roles_expected, built from the GLOBAL album.share_with (line 517)
  let expected : List (String × String) :=
    album_global_share_with.foldl (fun d e =>
      match find_user_by_name_or_email e.user users with
      | none => d           -- "User ... does not exist!" logged, user skipped
      | some u => dictInsert u.id e.role d) []
  -- if len(share_users_to_roles_expected) == 0 and not unshare_users: return
  if expected.length = 0 ∧ ¬ unshare_users then [] else
  -- album_share_info from fetch_album_info(album_to_share.id)
  let album_share_info : List (String × String) :=
    album_users_actual.foldl (fun d p => dictInsert p.1 p.2 d) []
  -- first pass over expected users: group users the album is not shared with
  -- by role, and immediately update differing roles in place
  let firstPass :=
    expected.foldl (fun (acc : List (String × List String) × List ShareCall) p =>
      match dictGet p.1 album_share_info with
      | none => (dictAppendToList p.2 p.1 acc.1, acc.2)
      | some actual_role =>
          if actual_role = p.2 then acc
          else (acc.1, acc.2 ++ [ShareCall.updateRole p.1 p.2])) ([], [])
  let share_roles_to_users_expected := firstPass.1
  -- unshare pass: users the album is shared with but which are not expected
  let callsAfterUnshare :=
    if unshare_users then
      album_share_info.foldl (fun cs p =>
        if (dictGet p.1 expected).isNone then cs ++ [ShareCall.unshare p.1] else cs)
        firstPass.2
    else firstPass.2
  -- finally share with all missing users, one batched call per role
  if 0 < share_roles_to_users_expected.length then
    share_roles_to_users_expected.foldl
      (fun cs g => cs ++ [ShareCall.shareGroup g.2 g.1]) callsAfterUnshare
  else callsAfterUnshare

/-- C2: the claim's concrete scenario holds (actual={userA:editor},
desired={userA:viewer, userB:viewer}, unshare=true issues exactly one
role-update for user A, one batched add for {userB:viewer} and no unshare
call), but its final sentence — that the desired set is computed from the
`album_to_share` parameter — is false on the code: line 517 iterates
`album.share_with`, the module-level variable, and the parameter's
`share_with` is never consulted.  The second conjunct evaluates the code
where the two differ (global album shares with A, parameter album with B):
the issued call shares with user A.  The third conjunct shows the
parameter's share settings are ignored for every input. -/
theorem update_album_shared_state_uses_global_album :
    (update_album_shared_state_calls
        [⟨"A", "viewer"⟩, ⟨"B", "viewer"⟩]
        [⟨"A", "viewer"⟩, ⟨"B", "viewer"⟩]
        [⟨"id-a", "A", "a@x"⟩, ⟨"id-b", "B", "b@x"⟩]
        [("id-a", "editor")]
        true
      = [ShareCall.updateRole "id-a" "viewer", ShareCall.shareGroup ["id-b"] "viewer"]) ∧
    (update_album_shared_state_calls
        [⟨"A", "viewer"⟩]
        [⟨"B", "viewer"⟩]
        [⟨"id-a", "A", "a@x"⟩, ⟨"id-b", "B", "b@x"⟩]
        []
        false
      = [ShareCall.shareGroup ["id-a"] "viewer"]) ∧
    (∀ g p₁ p₂ us actual un,
      update_album_shared_state_calls g p₁ us actual un
        = update_album_shared_state_calls g p₂ us actual un) := by
  refine ⟨by decide, by decide, fun g p₁ p₂ us actual un => rfl⟩

/-! ## Album model construction: `set_album_properties_in_model` (lines 955-995)
and the new-album path of `build_album_list` (lines 1036-1044) -/

/-- Embedding of the property-relevant fields of `AlbumModel` (lines 59-93).
Python `None` becomes `Option.none`; the asset list is not needed for the
property claims. -/
structure AlbumModel where
  name : String
  override_name : Option String
  description : Option String
  share_with : List ShareEntry
  thumbnail_setting : Option String
  sort_order : Option String
  archive : Option Bool
  comments_and_likes_enabled : Option Bool
deriving DecidableEq, Repr

/-- Embedding of `AlbumModel.__init__(name)`: all properties unset. -/
def AlbumModel.init (name : String) : AlbumModel :=
  ⟨name, none, none, [], none, none, none, none⟩

/-- Embedding of `parse_separated_string` (lines 237-253): split on the
separator, strip blanks around the key, rejoin the rest as the value
(absent when there is no separator occurrence). -/
def parse_separated_string (separated_string : String) (separator : String) :
    String × Option String :=
  let items := separated_string.splitOn separator
  ((items.headD "").trim,
   if 1 < items.length then some (String.intercalate separator (items.drop 1)) else none)

/-- The CLI options consumed by `set_album_properties_in_model`
(module-level globals assigned at lines 1158-1177).  `share_with` is the
collected `--share-with` values (`[]` when the flag is absent, matching
Python's falsy `None`), `album_order` is `none` for the argparse default
`False`, and `set_album_thumbnail` is `none` when the flag is absent. -/
structure CliConfig where
  share_with : List String
  share_role : String
  set_album_thumbnail : Option String
  archive : Bool
  album_order : Option String
  comments_and_likes_enabled : Bool
  comments_and_likes_disabled : Bool
deriving DecidableEq, Repr

/-- Embedding of `set_album_properties_in_model` (lines 955-995).  Each
conditional of the source maps to one field update; every assignment is
unconditional on the current field value: `share_with` entries are
appended, and `thumbnail_setting`, `archive`, `sort_order` and
`comments_and_likes_enabled` are overwritten whenever the corresponding
CLI option is set. -/
def set_album_properties_in_model (cfg : CliConfig) (m : AlbumModel) : AlbumModel :=
  { m with
    share_with :=
      -- if share_with: ... album_model_to_update.share_with.append(...)
      if cfg.share_with.isEmpty then m.share_with
      else m.share_with ++ cfg.share_with.map (fun s =>
        let p := parse_separated_string s "="
        ⟨p.1, p.2.getD cfg.share_role⟩),
    -- if set_album_thumbnail: album_model_to_update.thumbnail_setting = set_album_thumbnail
    thumbnail_setting :=
      match cfg.set_album_thumbnail with
      | some t => some t
      | none => m.thumbnail_setting,
    -- if archive: album_model_to_update.archive = archive
    archive := if cfg.archive then some true else m.archive,
    -- if album_order: album_model_to_update.sort_order = album_order
    sort_order :=
      match cfg.album_order with
      | some o => some o
      | none => m.sort_order,
    -- if comments_and_likes_enabled: ... elif comments_and_likes_disabled: ...
    comments_and_likes_enabled :=
      if cfg.comments_and_likes_enabled then some true
      else if cfg.comments_and_likes_disabled then some false
      else m.comments_and_likes_enabled }

/-- Embedding of the new-album branch of `build_album_list` (lines 1037-1044):
a fresh model is created, its `thumbnail_setting` is set to the original
path of the asset mapped from the Google album's `coverPhotoMediaItemId`
(when that id maps to an asset), and then
`set_album_properties_in_model` is invoked on it.
`cover_original_path` is `asset_by_gpid[coverPhotoMediaItemId].originalPath`
when resolvable, `none` otherwise. -/
def new_album_model_for_google_album (album_name : String)
    (cover_original_path : Option String) (cfg : CliConfig) : AlbumModel :=
  let base := AlbumModel.init album_name
  let withThumb :=
    match cover_original_path with
    | some p => { base with thumbnail_setting := some p }
    | none => base
  set_album_properties_in_model cfg withThumb

/-- C3 counterexample: the claim states that a `thumbnail_setting` already
derived from the Google album's cover photo is never replaced by the
`--set-album-thumbnail` CLI value.  On the code it is replaced: with the
cover-derived path `/lib/cover.jpg` already set and CLI value `first`,
the built model carries `first`, not the cover path, because
`set_album_properties_in_model` assigns `thumbnail_setting`
unconditionally. -/
theorem cli_thumbnail_overrides_cover_thumbnail :
    (new_album_model_for_google_album "Trip"
        (some "/lib/cover.jpg")
        ⟨[], "viewer", some "first", false, none, false, false⟩).thumbnail_setting
      = some "first" ∧
    (new_album_model_for_google_album "Trip"
        (some "/lib/cover.jpg")
        ⟨[], "viewer", some "first", false, none, false, false⟩).thumbnail_setting
      ≠ some "/lib/cover.jpg" := by
  refine ⟨rfl, by decide⟩

/-- C3 amended: CLI-supplied values are applied unconditionally, not only to
unset fields: `--set-album-thumbnail`, `--album-order`, `--archive` and the
comments/likes flags overwrite whatever the model already holds (fields
are left untouched only when the CLI option itself is absent), and
`--share-with` entries are appended to the existing share list.  In
particular a cover-derived `thumbnail_setting` IS replaced by the
`--set-album-thumbnail` value whenever that flag is supplied, and is kept
only when the flag is absent. -/
theorem set_album_properties_in_model_overwrites (cfg : CliConfig) (m : AlbumModel) :
    ((∀ t, cfg.set_album_thumbnail = some t →
        (set_album_properties_in_model cfg m).thumbnail_setting = some t) ∧
     (cfg.set_album_thumbnail = none →
        (set_album_properties_in_model cfg m).thumbnail_setting = m.thumbnail_setting)) ∧
    ((∀ o, cfg.album_order = some o →
        (set_album_properties_in_model cfg m).sort_order = some o) ∧
     (cfg.album_order = none →
        (set_album_properties_in_model cfg m).sort_order = m.sort_order)) ∧
    ((cfg.archive = true → (set_album_properties_in_model cfg m).archive = some true) ∧
     (cfg.archive = false → (set_album_properties_in_model cfg m).archive = m.archive)) ∧
    ((cfg.comments_and_likes_enabled = true →
        (set_album_properties_in_model cfg m).comments_and_likes_enabled = some true) ∧
     (cfg.comments_and_likes_enabled = false → cfg.comments_and_likes_disabled = true →
        (set_album_properties_in_model cfg m).comments_and_likes_enabled = some false) ∧
     (cfg.comments_and_likes_enabled = false → cfg.comments_and_likes_disabled = false →
        (set_album_properties_in_model cfg m).comments_and_likes_enabled
          = m.comments_and_likes_enabled)) ∧
    (∃ appended, (set_album_properties_in_model cfg m).share_with
        = m.share_with ++ appended) ∧
    (∀ album_name cover t, cfg.set_album_thumbnail = some t →
        (new_album_model_for_google_album album_name cover cfg).thumbnail_setting = some t) ∧
    (∀ album_name p, cfg.set_album_thumbnail = none →
        (new_album_model_for_google_album album_name (some p) cfg).thumbnail_setting
          = some p) := by
  refine ⟨⟨?_, ?_⟩, ⟨?_, ?_⟩, ⟨?_, ?_⟩, ⟨?_, ?_, ?_⟩, ?_, ?_, ?_⟩
  · intro t ht; simp [set_album_properties_in_model, ht]
  · intro ht; simp [set_album_properties_in_model, ht]
  · intro o ho; simp [set_album_properties_in_model, ho]
  · intro ho; simp [set_album_properties_in_model, ho]
  · intro ha; simp [set_album_properties_in_model, ha]
  · intro ha; simp [set_album_properties_in_model, ha]
  · intro hc; simp [set_album_properties_in_model, hc]
  · intro hc hd; simp [set_album_properties_in_model, hc, hd]
  · intro hc hd; simp [set_album_properties_in_model, hc, hd]
  · by_cases hsw : cfg.share_with.isEmpty
    · exact ⟨[], by simp [set_album_properties_in_model, hsw]⟩
    · refine ⟨cfg.share_with.map (fun s =>
        let p := parse_separated_string s "="
        ⟨p.1, p.2.getD cfg.share_role⟩), ?_⟩
      simp [set_album_properties_in_model, hsw]
  · intro album_name cover t ht
    cases cover <;> simp [new_album_model_for_google_album, set_album_properties_in_model, ht]
  · intro album_name p ht
    simp [new_album_model_for_google_album, set_album_properties_in_model, ht]

/-- C3 amended, witness: with `--set-album-thumbnail first` the cover-derived
thumbnail is overwritten, and with the flag absent it is kept. -/
theorem set_album_properties_in_model_overwrites_witness :
    (new_album_model_for_google_album "Trip" (some "/lib/cover.jpg")
        ⟨[], "viewer", some "first", false, none, false, false⟩).thumbnail_setting
      = some "first" ∧
    (new_album_model_for_google_album "Trip" (some "/lib/cover.jpg")
        ⟨[], "viewer", none, false, none, false, false⟩).thumbnail_setting
      = some "/lib/cover.jpg" :=
  ⟨(set_album_properties_in_model_overwrites
      ⟨[], "viewer", some "first", false, none, false, false⟩
      (AlbumModel.init "Trip")).2.2.2.2.2.1 "Trip" (some "/lib/cover.jpg") "first" rfl,
   (set_album_properties_in_model_overwrites
      ⟨[], "viewer", none, false, none, false, false⟩
      (AlbumModel.init "Trip")).2.2.2.2.2.2 "Trip" "/lib/cover.jpg" rfl⟩


/-! ## Membership addition: `divide_chunks` (lines 231-235) and
`add_assets_to_album` (lines 444-484) -/

/-- Embedding of `divide_chunks`:

    for j in range(0, len(full_list), chunk_size):
        yield full_list[j:j + chunk_size]

i.e. the successive slices of length `chunk_size` (only the last one may be
shorter).  Python raises `ValueError` from `range` when `chunk_size = 0`;
that case is outside the modelled domain (the theorems assume
`0 < chunk_size`) and is mapped to `[]` to keep the function total. -/
def divide_chunks {α : Type} : List α → Nat → List (List α)
  | [], _ => []
  | _ :: _, 0 => []
  | a :: t, n + 1 => (a :: t).take (n + 1) :: divide_chunks ((a :: t).drop (n + 1)) (n + 1)
termination_by l _ => l.length
decreasing_by
  simp only [List.length_drop, List.length_cons]
  omega

theorem divide_chunks_nil {α : Type} (n : Nat) : divide_chunks ([] : List α) n = [] := by
  rw [divide_chunks]

theorem divide_chunks_cons {α : Type} (a : α) (t : List α) (n : Nat) :
    divide_chunks (a :: t) (n + 1)
      = (a :: t).take (n + 1) :: divide_chunks ((a :: t).drop (n + 1)) (n + 1) := by
  rw [divide_chunks]

theorem divide_chunks_flatten {α : Type} (n : Nat) (hn : 0 < n) (l : List α) :
    (divide_chunks l n).flatten = l := by
  obtain ⟨m, rfl⟩ : ∃ m, n = m + 1 := ⟨n - 1, by omega⟩
  generalize hk : l.length = k
  induction k using Nat.strong_induction_on generalizing l with
  | _ k ih =>
    rcases l with _ | ⟨a, t⟩
    · simp [divide_chunks_nil]
    · have hk' : t.length + 1 = k := by simpa using hk
      rw [divide_chunks_cons]
      simp only [List.flatten_cons]
      rw [ih ((a :: t).drop (m + 1)).length
            (by simp only [List.length_drop, List.length_cons]; omega) _ rfl]
      exact List.take_append_drop (m + 1) (a :: t)

theorem divide_chunks_length_le {α : Type} (n : Nat) (hn : 0 < n) (l : List α) :
    ∀ c ∈ divide_chunks l n, c.length ≤ n := by
  obtain ⟨m, rfl⟩ : ∃ m, n = m + 1 := ⟨n - 1, by omega⟩
  generalize hk : l.length = k
  induction k using Nat.strong_induction_on generalizing l with
  | _ k ih =>
    rcases l with _ | ⟨a, t⟩
    · simp [divide_chunks_nil]
    · have hk' : t.length + 1 = k := by simpa using hk
      rw [divide_chunks_cons]
      intro c hc
      rcases List.mem_cons.mp hc with rfl | hmem
      · simp [List.length_take]
      · exact ih ((a :: t).drop (m + 1)).length
          (by simp only [List.length_drop, List.length_cons]; omega) _ rfl c hmem

/-- One element of the JSON array returned by `PUT albums/.../assets`: per
submitted asset id a success flag and, on failure, an error string
(`duplicate` when the asset was already part of the album). -/
structure AddResponseItem where
  id : String
  success : Bool
  error : String
deriving DecidableEq, Repr

/-- Observable outcome of `add_assets_to_album`: the chunked request bodies
issued, the returned list `asset_list_added`, and the warnings logged for
failed items whose error is not `duplicate`. -/
structure AddAssetsOutcome where
  requests : List (List String)
  added : List String
  warnings : List String
deriving DecidableEq, Repr

/-- Embedding of the per-item processing of one response element of
`add_assets_to_album` (lines 477-482):

    if not res['success']:
        if res['error'] != 'duplicate':
            logging.warning(...)
    else:
        asset_list_added.append(res['id'])

The accumulator carries (asset_list_added, warnings logged so far). -/
def add_assets_step (acc : List String × List String) (res : AddResponseItem) :
    List String × List String :=
  if res.success then (acc.1 ++ [res.id], acc.2)
  else if res.error = "duplicate" then acc
  else (acc.1, acc.2 ++ [res.error])

/-- Embedding of `add_assets_to_album` (lines 444-484).  The remote server is
a function from a request body (one chunk of asset ids) to the per-item
JSON response array; every chunk request is taken to return a 2xx status
(the claim is about request chunking and result collection, not about
transport failure, which `check_api_response` would raise through). -/
def add_assets_to_album (server : List String → List AddResponseItem)
    (asset_list : List String) (chunk_size : Nat) : AddAssetsOutcome :=
  let assets_chunked := divide_chunks asset_list chunk_size
  let collected := assets_chunked.foldl
    (fun acc assets_chunk => (server assets_chunk).foldl add_assets_step acc) ([], [])
  ⟨assets_chunked, collected.1, collected.2⟩

theorem add_assets_step_fold (response : List AddResponseItem)
    (acc : List String × List String) :
    response.foldl add_assets_step acc
      = (acc.1 ++ (response.filter (fun r => r.success)).map (fun r => r.id),
         acc.2 ++ (response.filter
            (fun r => !r.success && r.error != "duplicate")).map (fun r => r.error)) := by
  induction response generalizing acc with
  | nil => simp
  | cons r rs ih =>
    simp only [List.foldl_cons]
    rw [ih]
    by_cases hs : r.success = true
    · simp [add_assets_step, List.filter_cons, hs]
    · by_cases he : r.error = "duplicate"
      · simp [add_assets_step, List.filter_cons, hs, he]
      · simp [add_assets_step, List.filter_cons, hs, he]

theorem add_assets_chunks_fold (server : List String → List AddResponseItem)
    (chunks : List (List String)) (acc : List String × List String) :
    chunks.foldl (fun acc assets_chunk => (server assets_chunk).foldl add_assets_step acc) acc
      = (acc.1 ++ (((chunks.map server).flatten).filter
            (fun r => r.success)).map (fun r => r.id),
         acc.2 ++ (((chunks.map server).flatten).filter
            (fun r => !r.success && r.error != "duplicate")).map (fun r => r.error)) := by
  induction chunks generalizing acc with
  | nil => simp
  | cons c cs ih =>
    simp only [List.foldl_cons, List.map_cons, List.flatten_cons]
    rw [add_assets_step_fold, ih]
    simp [List.filter_append, List.append_assoc]

/-- C5: `add_assets_to_album` splits the asset list into chunks of at most
`chunk_size` (flattening the chunks gives back exactly the input list),
issues one request per chunk, and returns exactly the ids the server
reports with `success = true`; a failed item whose error is `duplicate` is
silently excluded (idempotence), while any other failed item is logged as
a warning and excluded. -/
theorem add_assets_to_album_spec (server : List String → List AddResponseItem)
    (asset_list : List String) (chunk_size : Nat) (hn : 0 < chunk_size) :
    (add_assets_to_album server asset_list chunk_size).requests
        = divide_chunks asset_list chunk_size ∧
    ((add_assets_to_album server asset_list chunk_size).requests).flatten = asset_list ∧
    (∀ c ∈ (add_assets_to_album server asset_list chunk_size).requests,
        c.length ≤ chunk_size) ∧
    (add_assets_to_album server asset_list chunk_size).added
      = ((((add_assets_to_album server asset_list chunk_size).requests.map server).flatten).filter
          (fun r => r.success)).map (fun r => r.id) ∧
    (add_assets_to_album server asset_list chunk_size).warnings
      = ((((add_assets_to_album server asset_list chunk_size).requests.map server).flatten).filter
          (fun r => !r.success && r.error != "duplicate")).map (fun r => r.error) := by
  refine ⟨rfl, divide_chunks_flatten chunk_size hn asset_list,
    divide_chunks_length_le chunk_size hn asset_list, ?_, ?_⟩
  · show ((divide_chunks asset_list chunk_size).foldl
        (fun acc assets_chunk => (server assets_chunk).foldl add_assets_step acc) ([], [])).1 = _
    rw [add_assets_chunks_fold]
    simp [add_assets_to_album]
  · show ((divide_chunks asset_list chunk_size).foldl
        (fun acc assets_chunk => (server assets_chunk).foldl add_assets_step acc) ([], [])).2 = _
    rw [add_assets_chunks_fold]
    simp [add_assets_to_album]

/-- An example server for the C5 witness: asset `b` is reported as a
duplicate, asset `c` fails with a non-duplicate error, everything else is
added. -/
def addAssetsExampleServer (chunk : List String) : List AddResponseItem :=
  chunk.map (fun s =>
    if s = "b" then ⟨s, false, "duplicate"⟩
    else if s = "c" then ⟨s, false, "no permission"⟩
    else ⟨s, true, ""⟩)

/-- C5 witness: the chunking/collection theorem applied at chunk size 2 and
asset list [a, b, c, d]. -/
theorem add_assets_to_album_spec_witness :
    0 < 2 ∧
    ((add_assets_to_album addAssetsExampleServer ["a", "b", "c", "d"] 2).requests
        = divide_chunks ["a", "b", "c", "d"] 2 ∧
     ((add_assets_to_album addAssetsExampleServer ["a", "b", "c", "d"] 2).requests).flatten
        = ["a", "b", "c", "d"] ∧
     (∀ c ∈ (add_assets_to_album addAssetsExampleServer ["a", "b", "c", "d"] 2).requests,
        c.length ≤ 2) ∧
     (add_assets_to_album addAssetsExampleServer ["a", "b", "c", "d"] 2).added
       = ((((add_assets_to_album addAssetsExampleServer ["a", "b", "c", "d"] 2).requests.map
              addAssetsExampleServer).flatten).filter
            (fun r => r.success)).map (fun r => r.id) ∧
     (add_assets_to_album addAssetsExampleServer ["a", "b", "c", "d"] 2).warnings
       = ((((add_assets_to_album addAssetsExampleServer ["a", "b", "c", "d"] 2).requests.map
              addAssetsExampleServer).flatten).filter
            (fun r => !r.success && r.error != "duplicate")).map (fun r => r.error)) :=
  ⟨by decide,
   add_assets_to_album_spec addAssetsExampleServer ["a", "b", "c", "d"] 2 (by decide)⟩


/-! ## Thumbnail selection: `choose_thumbnail` (lines 817-854)

`fileCreatedAt` is an ISO-8601 timestamp string in the Immich API and the
Python code sorts by it with string comparison; lexicographic order on
such strings is a total order, abstracted here as a `Nat` key.
Python's `list.sort` (Timsort) is stable, and for a fixed key there is
exactly one stable ascending reordering of a list, so the stable insertion
sort below computes exactly the result of
`thumbnail_assets.sort(key=lambda x: x['fileCreatedAt'])`. -/

structure Asset where
  id : String
  originalPath : String
  fileCreatedAt : Nat
  isOffline : Bool
deriving DecidableEq, Repr

/-- Constant `ALBUM_THUMBNAIL_RANDOM_ALL` (line 43). -/
def ALBUM_THUMBNAIL_RANDOM_ALL : String := "random-all"

/-- Constant `ALBUM_THUMBNAIL_SETTINGS` (line 44). -/
def ALBUM_THUMBNAIL_SETTINGS : List String := ["first", "last", "random"]

/-- Constant `ALBUM_THUMBNAIL_SETTINGS_GLOBAL` (line 45). -/
def ALBUM_THUMBNAIL_SETTINGS_GLOBAL : List String :=
  ALBUM_THUMBNAIL_SETTINGS ++ [ALBUM_THUMBNAIL_RANDOM_ALL]

/-- The dict `ALBUM_THUMBNAIL_STATIC_INDICES` (lines 46-49) as a lookup:
`first` maps to index 0, `last` to index -1, anything else is absent. -/
def ALBUM_THUMBNAIL_STATIC_INDICES (s : String) : Option Int :=
  if s = "first" then some 0 else if s = "last" then some (-1) else none

/-- Python list subscription `l[idx]` for the index values the script uses:
a non-negative index counts from the front, a negative index `-k` denotes
`l[len(l) - k]`. -/
def pythonListGet (l : List Asset) (idx : Int) : Option Asset :=
  if 0 ≤ idx then l[idx.toNat]? else l[l.length - (-idx).toNat]?

/-- Stable insertion into an ascending list: the new element goes in front of
the first element whose key is not smaller, hence in front of equal keys
coming from later input positions. -/
def insertByCreated (a : Asset) : List Asset → List Asset
  | [] => [a]
  | b :: t =>
      if b.fileCreatedAt < a.fileCreatedAt then b :: insertByCreated a t
      else a :: b :: t

/-- Stable sort by `fileCreatedAt` ascending — the embedding of
`thumbnail_assets.sort(key=lambda x: x['fileCreatedAt'])` (line 846). -/
def sortByCreated : List Asset → List Asset
  | [] => []
  | a :: t => insertByCreated a (sortByCreated t)

/-- Embedding of `choose_thumbnail` (lines 817-854).  The call
`random.randint(0, len(thumbnail_assets)-1)` is modelled by the drawn
value `rand` (uniform over `0 .. len-1` by the contract of
`random.randint`).  The returned pair is (chosen asset or `None`, final
state of the caller's list — the source sorts the caller's list in place
via the alias `thumbnail_assets = thumbnail_asset_list`). -/
def choose_thumbnail (thumbnail_setting : String) (thumbnail_asset_list : List Asset)
    (rand : Nat) : Option Asset × List Asset :=
  -- Case: fully qualified path
  if thumbnail_setting ∉ ALBUM_THUMBNAIL_SETTINGS_GLOBAL then
    (thumbnail_asset_list.find? (fun a => a.originalPath == thumbnail_setting),
     thumbnail_asset_list)
  else if 0 < thumbnail_asset_list.length then
    -- Sort assets by creation date (in place)
    let thumbnail_assets := sortByCreated thumbnail_asset_list
    let idx : Int :=
      match ALBUM_THUMBNAIL_STATIC_INDICES thumbnail_setting with
      | none => (rand : Int)
      | some i => i
    (pythonListGet thumbnail_assets idx, thumbnail_assets)
  else
    (none, thumbnail_asset_list)

/-- First element of the list attaining the minimal `fileCreatedAt`. -/
def firstMin : List Asset → Option Asset
  | [] => none
  | a :: t =>
      match firstMin t with
      | none => some a
      | some b => if b.fileCreatedAt < a.fileCreatedAt then some b else some a

/-- Last element of the list attaining the maximal `fileCreatedAt`. -/
def lastMax : List Asset → Option Asset
  | [] => none
  | a :: t =>
      match lastMax t with
      | none => some a
      | some b => if b.fileCreatedAt < a.fileCreatedAt then some a else some b

theorem insertByCreated_ne_nil (a : Asset) (s : List Asset) : insertByCreated a s ≠ [] := by
  cases s with
  | nil => simp [insertByCreated]
  | cons b t =>
      by_cases h : b.fileCreatedAt < a.fileCreatedAt <;> simp [insertByCreated, h]

theorem length_insertByCreated (a : Asset) (s : List Asset) :
    (insertByCreated a s).length = s.length + 1 := by
  induction s with
  | nil => rfl
  | cons b t ih =>
      by_cases h : b.fileCreatedAt < a.fileCreatedAt <;>
        simp [insertByCreated, h, ih]

theorem length_sortByCreated (l : List Asset) : (sortByCreated l).length = l.length := by
  induction l with
  | nil => rfl
  | cons a t ih => simp [sortByCreated, length_insertByCreated, ih]

theorem perm_insertByCreated (a : Asset) (s : List Asset) :
    List.Perm (insertByCreated a s) (a :: s) := by
  induction s with
  | nil => rfl
  | cons b t ih =>
      by_cases h : b.fileCreatedAt < a.fileCreatedAt
      · simp only [insertByCreated, if_pos h]
        exact (ih.cons b).trans (List.Perm.swap a b t)
      · simp [insertByCreated, h]

theorem perm_sortByCreated (l : List Asset) : List.Perm (sortByCreated l) l := by
  induction l with
  | nil => rfl
  | cons a t ih => exact (perm_insertByCreated a (sortByCreated t)).trans (ih.cons a)

theorem mem_sortByCreated (x : Asset) (l : List Asset) :
    x ∈ sortByCreated l ↔ x ∈ l :=
  (perm_sortByCreated l).mem_iff

theorem head?_insertByCreated (a : Asset) (s : List Asset) :
    (insertByCreated a s).head?
      = match s.head? with
        | none => some a
        | some b => if b.fileCreatedAt < a.fileCreatedAt then some b else some a := by
  cases s with
  | nil => rfl
  | cons b t =>
      by_cases h : b.fileCreatedAt < a.fileCreatedAt <;> simp [insertByCreated, h]

theorem head?_sortByCreated (l : List Asset) :
    (sortByCreated l).head? = firstMin l := by
  induction l with
  | nil => rfl
  | cons a t ih =>
      show (insertByCreated a (sortByCreated t)).head? = _
      rw [head?_insertByCreated, ih]
      rfl

theorem pairwise_insertByCreated (a : Asset) (s : List Asset)
    (hs : List.Pairwise (fun x y => x.fileCreatedAt ≤ y.fileCreatedAt) s) :
    List.Pairwise (fun x y => x.fileCreatedAt ≤ y.fileCreatedAt) (insertByCreated a s) := by
  induction s with
  | nil => simp [insertByCreated]
  | cons b t ih =>
      rcases List.pairwise_cons.mp hs with ⟨hb, ht⟩
      by_cases h : b.fileCreatedAt < a.fileCreatedAt
      · simp only [insertByCreated, if_pos h]
        refine List.pairwise_cons.mpr ⟨?_, ih ht⟩
        intro x hx
        rcases List.mem_cons.mp ((perm_insertByCreated a t).mem_iff.mp hx) with rfl | hxt
        · omega
        · exact hb x hxt
      · simp only [insertByCreated, if_neg h]
        refine List.pairwise_cons.mpr ⟨?_, hs⟩
        intro x hx
        rcases List.mem_cons.mp hx with rfl | hxt
        · omega
        · have := hb x hxt
          omega

theorem pairwise_sortByCreated (l : List Asset) :
    List.Pairwise (fun x y => x.fileCreatedAt ≤ y.fileCreatedAt) (sortByCreated l) := by
  induction l with
  | nil => simp [sortByCreated]
  | cons a t ih => exact pairwise_insertByCreated a (sortByCreated t) ih

theorem getLast?_insertByCreated (a : Asset) (s : List Asset)
    (hs : List.Pairwise (fun x y => x.fileCreatedAt ≤ y.fileCreatedAt) s) :
    (insertByCreated a s).getLast?
      = match s.getLast? with
        | none => some a
        | some b => if b.fileCreatedAt < a.fileCreatedAt then some a else some b := by
  induction s with
  | nil => rfl
  | cons b t ih =>
      rcases List.pairwise_cons.mp hs with ⟨hb, ht⟩
      by_cases h : b.fileCreatedAt < a.fileCreatedAt
      · simp only [insertByCreated, if_pos h]
        cases t with
        | nil =>
            show (b :: [a]).getLast? = _
            rw [List.getLast?_cons_cons]
            simp [h]
        | cons c u =>
            obtain ⟨x, xs, hx⟩ := List.exists_cons_of_ne_nil (insertByCreated_ne_nil a (c :: u))
            rw [hx, List.getLast?_cons_cons, ← hx, ih ht]
            obtain hd := List.getLast?_eq_getLast_of_ne_nil (List.cons_ne_nil c u)
            rw [List.getLast?_cons_cons, hd]
      · simp only [insertByCreated, if_neg h]
        rw [List.getLast?_cons_cons]
        obtain hd := List.getLast?_eq_getLast_of_ne_nil (List.cons_ne_nil b t)
        rw [hd]
        dsimp only
        have hmem := List.getLast_mem (List.cons_ne_nil b t)
        have hbd : b.fileCreatedAt ≤ ((b :: t).getLast (List.cons_ne_nil b t)).fileCreatedAt := by
          rcases List.mem_cons.mp hmem with he | hmt
          · rw [he]
          · exact hb _ hmt
        rw [if_neg (by omega)]

theorem getLast?_sortByCreated (l : List Asset) :
    (sortByCreated l).getLast? = lastMax l := by
  induction l with
  | nil => rfl
  | cons a t ih =>
      show (insertByCreated a (sortByCreated t)).getLast? = _
      rw [getLast?_insertByCreated a (sortByCreated t) (pairwise_sortByCreated t), ih]
      rfl


/-- `firstMin` returns the element at the first index attaining the minimal
`fileCreatedAt`: it is minimal among all elements and strictly below every
earlier element. -/
theorem firstMin_spec (l : List Asset) (hl : l ≠ []) :
    ∃ i, ∃ h : i < l.length, firstMin l = some (l.get ⟨i, h⟩) ∧
      (∀ j, ∀ hj : j < l.length,
        (l.get ⟨i, h⟩).fileCreatedAt ≤ (l.get ⟨j, hj⟩).fileCreatedAt) ∧
      (∀ j, ∀ hj : j < l.length, j < i →
        (l.get ⟨i, h⟩).fileCreatedAt < (l.get ⟨j, hj⟩).fileCreatedAt) := by
  induction l with
  | nil => exact absurd rfl hl
  | cons a t ih =>
    rcases eq_or_ne t [] with rfl | htne
    · refine ⟨0, by simp, rfl, ?_, ?_⟩
      · intro j hj
        have hj0 : j = 0 := by simp at hj; omega
        subst hj0
        simp
      · intro j hj hji
        omega
    · obtain ⟨i, h, heq, hmin, hbef⟩ := ih htne
      simp only [List.get_eq_getElem] at heq hmin hbef
      by_cases hlt : t[i].fileCreatedAt < a.fileCreatedAt
      · refine ⟨i + 1, by simp; omega, ?_, ?_, ?_⟩
        · show firstMin (a :: t) = _
          simp only [firstMin, heq, if_pos hlt]
          simp [List.get_eq_getElem]
        · intro j hj
          cases j with
          | zero =>
              simp only [List.get_eq_getElem, List.getElem_cons_succ, List.getElem_cons_zero]
              omega
          | succ j =>
              have hj2 : j < t.length := by simp at hj; omega
              have hj3 := hmin j hj2
              simp only [List.get_eq_getElem, List.getElem_cons_succ]
              exact hj3
        · intro j hj hji
          cases j with
          | zero =>
              simp only [List.get_eq_getElem, List.getElem_cons_succ, List.getElem_cons_zero]
              exact hlt
          | succ j =>
              have hj2 : j < t.length := by simp at hj; omega
              have hj3 := hbef j hj2 (by omega)
              simp only [List.get_eq_getElem, List.getElem_cons_succ]
              exact hj3
      · refine ⟨0, by simp, ?_, ?_, ?_⟩
        · show firstMin (a :: t) = _
          simp only [firstMin, heq, if_neg hlt]
          simp
        · intro j hj
          cases j with
          | zero => simp
          | succ j =>
              have hj2 : j < t.length := by simp at hj; omega
              have hj3 := hmin j hj2
              simp only [List.get_eq_getElem, List.getElem_cons_succ, List.getElem_cons_zero]
              omega
        · intro j hj hji
          omega

/-- `lastMax` returns the element at the last index attaining the maximal
`fileCreatedAt`: it dominates all elements and is strictly above every
later element. -/
theorem lastMax_spec (l : List Asset) (hl : l ≠ []) :
    ∃ i, ∃ h : i < l.length, lastMax l = some (l.get ⟨i, h⟩) ∧
      (∀ j, ∀ hj : j < l.length,
        (l.get ⟨j, hj⟩).fileCreatedAt ≤ (l.get ⟨i, h⟩).fileCreatedAt) ∧
      (∀ j, ∀ hj : j < l.length, i < j →
        (l.get ⟨j, hj⟩).fileCreatedAt < (l.get ⟨i, h⟩).fileCreatedAt) := by
  induction l with
  | nil => exact absurd rfl hl
  | cons a t ih =>
    rcases eq_or_ne t [] with rfl | htne
    · refine ⟨0, by simp, rfl, ?_, ?_⟩
      · intro j hj
        have hj0 : j = 0 := by simp at hj; omega
        subst hj0
        simp
      · intro j hj hji
        simp at hj
        omega
    · obtain ⟨i, h, heq, hmax, haft⟩ := ih htne
      simp only [List.get_eq_getElem] at heq hmax haft
      by_cases hlt : t[i].fileCreatedAt < a.fileCreatedAt
      · refine ⟨0, by simp, ?_, ?_, ?_⟩
        · show lastMax (a :: t) = _
          simp only [lastMax, heq, if_pos hlt]
          simp
        · intro j hj
          cases j with
          | zero => simp
          | succ j =>
              have hj2 : j < t.length := by simp at hj; omega
              have hj3 := hmax j hj2
              simp only [List.get_eq_getElem, List.getElem_cons_succ, List.getElem_cons_zero]
              omega
        · intro j hj hji
          cases j with
          | zero => omega
          | succ j =>
              have hj2 : j < t.length := by simp at hj; omega
              have hj3 := hmax j hj2
              simp only [List.get_eq_getElem, List.getElem_cons_succ, List.getElem_cons_zero]
              omega
      · refine ⟨i + 1, by simp; omega, ?_, ?_, ?_⟩
        · show lastMax (a :: t) = _
          simp only [lastMax, heq, if_neg hlt]
          simp [List.get_eq_getElem]
        · intro j hj
          cases j with
          | zero =>
              simp only [List.get_eq_getElem, List.getElem_cons_succ, List.getElem_cons_zero]
              omega
          | succ j =>
              have hj2 : j < t.length := by simp at hj; omega
              have hj3 := hmax j hj2
              simp only [List.get_eq_getElem, List.getElem_cons_succ]
              exact hj3
        · intro j hj hji
          cases j with
          | zero => omega
          | succ j =>
              have hj2 : j < t.length := by simp at hj; omega
              have hj3 := haft j hj2 (by omega)
              simp only [List.get_eq_getElem, List.getElem_cons_succ]
              exact hj3


theorem choose_thumbnail_path_case (p : String) (l : List Asset) (r : Nat)
    (hp : p ∉ ALBUM_THUMBNAIL_SETTINGS_GLOBAL) :
    choose_thumbnail p l r = (l.find? (fun a => a.originalPath == p), l) := by
  simp [choose_thumbnail, hp]

theorem choose_thumbnail_state_eq (s : String) (l : List Asset) (r : Nat)
    (hs : s ∈ ALBUM_THUMBNAIL_SETTINGS_GLOBAL) (hl : l ≠ []) :
    (choose_thumbnail s l r).2 = sortByCreated l := by
  simp [choose_thumbnail, hs, List.length_pos.mpr hl]

theorem choose_thumbnail_first_eq (l : List Asset) (r : Nat) (hl : l ≠ []) :
    choose_thumbnail "first" l r = (firstMin l, sortByCreated l) := by
  have hmem : "first" ∈ ALBUM_THUMBNAIL_SETTINGS_GLOBAL := by decide
  have hidx : ALBUM_THUMBNAIL_STATIC_INDICES "first" = some 0 := by decide
  simp only [choose_thumbnail, hidx]
  rw [if_neg (by simp [hmem]), if_pos (List.length_pos.mpr hl)]
  have : pythonListGet (sortByCreated l) 0 = (sortByCreated l).head? := by
    simp [pythonListGet, List.head?_eq_getElem?]
  rw [this, head?_sortByCreated]

theorem choose_thumbnail_last_eq (l : List Asset) (r : Nat) (hl : l ≠ []) :
    choose_thumbnail "last" l r = (lastMax l, sortByCreated l) := by
  have hmem : "last" ∈ ALBUM_THUMBNAIL_SETTINGS_GLOBAL := by decide
  have hidx : ALBUM_THUMBNAIL_STATIC_INDICES "last" = some (-1) := by decide
  simp only [choose_thumbnail, hidx]
  rw [if_neg (by simp [hmem]), if_pos (List.length_pos.mpr hl)]
  have : pythonListGet (sortByCreated l) (-1) = (sortByCreated l).getLast? := by
    simp [pythonListGet, List.getLast?_eq_getElem?]
  rw [this, getLast?_sortByCreated]

theorem choose_thumbnail_random_eq (s : String) (l : List Asset) (r : Nat)
    (hmem : s ∈ ALBUM_THUMBNAIL_SETTINGS_GLOBAL)
    (hidx : ALBUM_THUMBNAIL_STATIC_INDICES s = none) (hl : l ≠ []) :
    choose_thumbnail s l r = ((sortByCreated l)[r]?, sortByCreated l) := by
  simp only [choose_thumbnail, hidx]
  rw [if_neg (by simp [hmem]), if_pos (List.length_pos.mpr hl)]
  have h0 : pythonListGet (sortByCreated l) ((r : Nat) : Int) = (sortByCreated l)[r]? := by
    simp [pythonListGet]
  rw [h0]

theorem choose_thumbnail_empty_eq (s : String) (r : Nat)
    (hmem : s ∈ ALBUM_THUMBNAIL_SETTINGS_GLOBAL) :
    choose_thumbnail s [] r = (none, []) := by
  simp [choose_thumbnail, hmem]

/-- C6: `choose_thumbnail` behaves as specified for every candidate list:
with a literal-path setting it returns the (first) asset whose
`originalPath` equals the setting exactly, and `none` when no asset
matches; with setting `first` it returns the asset at the first index
attaining the minimal `fileCreatedAt` (minimal overall, strictly below
every earlier element — ties broken by stable input order); with `last`
the asset at the last index attaining the maximal `fileCreatedAt`; with
`random` or `random-all` and a drawn index `r < len` it returns element
`r` of the stably sorted list (each such element is a member of the input;
`random.randint` draws `r` uniformly); and with an empty candidate list
and a non-path setting it returns `none`. -/
theorem choose_thumbnail_spec (l : List Asset) (r : Nat) :
    (∀ p, p ∉ ALBUM_THUMBNAIL_SETTINGS_GLOBAL →
       ((∀ a ∈ l, a.originalPath ≠ p) → (choose_thumbnail p l r).1 = none) ∧
       (∀ a, (choose_thumbnail p l r).1 = some a → a ∈ l ∧ a.originalPath = p) ∧
       ((∃ a ∈ l, a.originalPath = p) → ((choose_thumbnail p l r).1).isSome)) ∧
    (l ≠ [] → ∃ i, ∃ h : i < l.length,
       (choose_thumbnail "first" l r).1 = some (l.get ⟨i, h⟩) ∧
       (∀ j, ∀ hj : j < l.length,
         (l.get ⟨i, h⟩).fileCreatedAt ≤ (l.get ⟨j, hj⟩).fileCreatedAt) ∧
       (∀ j, ∀ hj : j < l.length, j < i →
         (l.get ⟨i, h⟩).fileCreatedAt < (l.get ⟨j, hj⟩).fileCreatedAt)) ∧
    (l ≠ [] → ∃ i, ∃ h : i < l.length,
       (choose_thumbnail "last" l r).1 = some (l.get ⟨i, h⟩) ∧
       (∀ j, ∀ hj : j < l.length,
         (l.get ⟨j, hj⟩).fileCreatedAt ≤ (l.get ⟨i, h⟩).fileCreatedAt) ∧
       (∀ j, ∀ hj : j < l.length, i < j →
         (l.get ⟨j, hj⟩).fileCreatedAt < (l.get ⟨i, h⟩).fileCreatedAt)) ∧
    (∀ s, s = "random" ∨ s = ALBUM_THUMBNAIL_RANDOM_ALL → r < l.length →
       ∃ hr : r < (sortByCreated l).length,
         (choose_thumbnail s l r).1 = some ((sortByCreated l).get ⟨r, hr⟩) ∧
         (sortByCreated l).get ⟨r, hr⟩ ∈ l) ∧
    (∀ s, s ∈ ALBUM_THUMBNAIL_SETTINGS_GLOBAL → l = [] →
       (choose_thumbnail s l r).1 = none) := by
  refine ⟨?_, ?_, ?_, ?_, ?_⟩
  · intro p hp
    rw [choose_thumbnail_path_case p l r hp]
    refine ⟨?_, ?_, ?_⟩
    · intro hnone
      simp only [List.find?_eq_none, beq_iff_eq]
      intro a ha
      exact hnone a ha
    · intro a ha
      simp only at ha
      exact ⟨List.mem_of_find?_eq_some ha, by simpa using List.find?_some ha⟩
    · intro hex
      obtain ⟨a, ha, hpath⟩ := hex
      simp only [List.find?_isSome, beq_iff_eq]
      exact ⟨a, ha, hpath⟩
  · intro hl
    obtain ⟨i, h, heq, hmin, hbef⟩ := firstMin_spec l hl
    exact ⟨i, h, by rw [choose_thumbnail_first_eq l r hl]; exact heq, hmin, hbef⟩
  · intro hl
    obtain ⟨i, h, heq, hmax, haft⟩ := lastMax_spec l hl
    exact ⟨i, h, by rw [choose_thumbnail_last_eq l r hl]; exact heq, hmax, haft⟩
  · intro s hs hr
    have hl : l ≠ [] := by
      intro hcontra
      rw [hcontra] at hr
      simp at hr
    have hr2 : r < (sortByCreated l).length := by
      rw [length_sortByCreated]
      exact hr
    have hmem : s ∈ ALBUM_THUMBNAIL_SETTINGS_GLOBAL := by
      rcases hs with rfl | rfl <;> decide
    have hidx : ALBUM_THUMBNAIL_STATIC_INDICES s = none := by
      rcases hs with rfl | rfl <;> decide
    refine ⟨hr2, ?_, ?_⟩
    · rw [choose_thumbnail_random_eq s l r hmem hidx hl]
      simp [List.getElem?_eq_getElem hr2, List.get_eq_getElem]
    · rw [← mem_sortByCreated]
      exact List.get_mem (sortByCreated l) r hr2
  · intro s hmem hl
    rw [hl, choose_thumbnail_empty_eq s r hmem]

/-- Concrete asset list for the C6 witness: creation keys 5, 3, 3 with the
two minimal keys tied. -/
def thumbWitnessAssets : List Asset :=
  [⟨"a1", "/x/p1.jpg", 5, false⟩, ⟨"a2", "/x/p2.jpg", 3, false⟩,
   ⟨"a3", "/x/p3.jpg", 3, false⟩]

/-- C6 witness: the thumbnail-selection theorem applied at a concrete
three-asset list and drawn random index 1, discharging each hypothesis
(`decide` evaluates the path mismatch, non-emptiness, and the index
bound). -/
theorem choose_thumbnail_spec_witness :
    ((choose_thumbnail "/q.jpg" thumbWitnessAssets 1).1 = none) ∧
    (∃ i, ∃ h : i < thumbWitnessAssets.length,
       (choose_thumbnail "first" thumbWitnessAssets 1).1
          = some (thumbWitnessAssets.get ⟨i, h⟩) ∧
       (∀ j, ∀ hj : j < thumbWitnessAssets.length,
         (thumbWitnessAssets.get ⟨i, h⟩).fileCreatedAt
            ≤ (thumbWitnessAssets.get ⟨j, hj⟩).fileCreatedAt) ∧
       (∀ j, ∀ hj : j < thumbWitnessAssets.length, j < i →
         (thumbWitnessAssets.get ⟨i, h⟩).fileCreatedAt
            < (thumbWitnessAssets.get ⟨j, hj⟩).fileCreatedAt)) ∧
    (∃ i, ∃ h : i < thumbWitnessAssets.length,
       (choose_thumbnail "last" thumbWitnessAssets 1).1
          = some (thumbWitnessAssets.get ⟨i, h⟩) ∧
       (∀ j, ∀ hj : j < thumbWitnessAssets.length,
         (thumbWitnessAssets.get ⟨j, hj⟩).fileCreatedAt
            ≤ (thumbWitnessAssets.get ⟨i, h⟩).fileCreatedAt) ∧
       (∀ j, ∀ hj : j < thumbWitnessAssets.length, i < j →
         (thumbWitnessAssets.get ⟨j, hj⟩).fileCreatedAt
            < (thumbWitnessAssets.get ⟨i, h⟩).fileCreatedAt)) ∧
    (∃ hr : 1 < (sortByCreated thumbWitnessAssets).length,
       (choose_thumbnail "random" thumbWitnessAssets 1).1
          = some ((sortByCreated thumbWitnessAssets).get ⟨1, hr⟩) ∧
       (sortByCreated thumbWitnessAssets).get ⟨1, hr⟩ ∈ thumbWitnessAssets) ∧
    (choose_thumbnail "random" ([] : List Asset) 1).1 = none :=
  ⟨((choose_thumbnail_spec thumbWitnessAssets 1).1 "/q.jpg" (by decide)).1 (by decide),
   (choose_thumbnail_spec thumbWitnessAssets 1).2.1 (by decide),
   (choose_thumbnail_spec thumbWitnessAssets 1).2.2.1 (by decide),
   (choose_thumbnail_spec thumbWitnessAssets 1).2.2.2.1 "random" (Or.inl rfl) (by decide),
   (choose_thumbnail_spec ([] : List Asset) 1).2.2.2.2 "random" (by decide) rfl⟩

/-- C10: for every non-path thumbnail setting and non-empty candidate list,
`choose_thumbnail` leaves the caller's list re-ordered: the final state of
the passed list is its stable sort by `fileCreatedAt` ascending — a
permutation of the input, sorted, and in general different from the input
(an observable mutation, since the source sorts the caller's list in
place through the alias `thumbnail_assets`). -/
theorem choose_thumbnail_sorts_caller_list (s : String) (l : List Asset) (r : Nat)
    (hs : s ∈ ALBUM_THUMBNAIL_SETTINGS_GLOBAL) (hl : l ≠ []) :
    (choose_thumbnail s l r).2 = sortByCreated l ∧
    List.Pairwise (fun x y => x.fileCreatedAt ≤ y.fileCreatedAt) (choose_thumbnail s l r).2 ∧
    List.Perm (choose_thumbnail s l r).2 l ∧
    (∃ l₀ : List Asset, l₀ ≠ [] ∧ (choose_thumbnail s l₀ r).2 ≠ l₀) := by
  have hstate := choose_thumbnail_state_eq s l r hs hl
  refine ⟨hstate, ?_, ?_, ?_⟩
  · rw [hstate]
    exact pairwise_sortByCreated l
  · rw [hstate]
    exact perm_sortByCreated l
  · refine ⟨[⟨"x", "px", 5, false⟩, ⟨"y", "py", 3, false⟩], by decide, ?_⟩
    rw [choose_thumbnail_state_eq s _ r hs (by decide)]
    decide

/-- C10 witness: the in-place-sort theorem applied at setting `random` and a
concrete two-element list given in descending creation order; the final
list state is the ascending reordering, which differs from the input. -/
theorem choose_thumbnail_sorts_caller_list_witness :
    (choose_thumbnail "random" [⟨"x", "px", 5, false⟩, ⟨"y", "py", 3, false⟩] 0).2
      = sortByCreated [⟨"x", "px", 5, false⟩, ⟨"y", "py", 3, false⟩] ∧
    sortByCreated [⟨"x", "px", 5, false⟩, ⟨"y", "py", 3, false⟩]
      = [⟨"y", "py", 3, false⟩, ⟨"x", "px", 5, false⟩] :=
  ⟨(choose_thumbnail_sorts_caller_list "random"
      [⟨"x", "px", 5, false⟩, ⟨"y", "py", 3, false⟩] 0 (by decide) (by decide)).1,
   by decide⟩


/-! ## Share-role assertions: `update_album_share_user_role` (lines 597-623)
and `share_album_with_user_and_role` (lines 625-661)

Both functions execute `assert share_role in SHARE_ROLES`.  `share_role`
is the module-level variable holding the `--share-role` CLI value (line
1164) — not the function's role parameter (`share_user_role` resp.
`user_share_role`).  argparse restricts `--share-role` to the choices
{viewer, editor}, so the assertion never fires, whatever role parameter
the caller supplies; the request is then issued with the caller's role. -/

/-- Constant `SHARE_ROLES` (line 37). -/
def SHARE_ROLES : List String := ["editor", "viewer"]

/-- Embedding of `update_album_share_user_role`.  `global_share_role` is the
module-level `share_role` tested by the `assert` (line 616); on success
the function returns the `role` field of the PUT body it issues, which is
the `share_user_role` parameter. -/
def update_album_share_user_role (global_share_role : String)
    (share_user_role : String) : Except Exc String :=
  if global_share_role ∈ SHARE_ROLES then Except.ok share_user_role
  else Except.error Exc.assertionError

/-- Embedding of `share_album_with_user_and_role`.  `global_share_role` is
the module-level `share_role` tested by the `assert` (line 646); on
success the function returns the `albumUsers` payload of the PUT it
issues, as (role, userId) pairs built from the `user_share_role`
parameter. -/
def share_album_with_user_and_role (global_share_role : String)
    (user_ids_to_share_with : List String) (user_share_role : String) :
    Except Exc (List (String × String)) :=
  if global_share_role ∈ SHARE_ROLES then
    Except.ok (user_ids_to_share_with.map (fun u => (user_share_role, u)))
  else Except.error Exc.assertionError

/-- C7: the claim states that an invalid role argument makes the share
functions fail with an assertion before issuing the request — i.e. that
the assertion tests the role parameter.  On the code it tests the
module-level `share_role` instead: with the global at its argparse default
`viewer` and the invalid role parameter `admin`, both functions pass the
assertion and issue their request carrying role `admin`, even though
`admin` is not in `SHARE_ROLES`. -/
theorem share_role_assertion_tests_global_not_parameter :
    update_album_share_user_role "viewer" "admin" = Except.ok "admin" ∧
    share_album_with_user_and_role "viewer" ["u1"] "admin"
      = Except.ok [("admin", "u1")] ∧
    "admin" ∉ SHARE_ROLES := by
  refine ⟨rfl, rfl, by decide⟩

/-! ## Offline asset removal (lines 663-793)

`trigger_offline_asset_removal` dispatches on the module-level `version`
dict; the two implementations are modelled below with their observable
remote actions.  The library list (with the HTTP status each
`removeOffline` POST returns) and the trashed-asset search result are
explicit parameters; the search and force-delete requests themselves are
taken to succeed. -/

structure Version where
  major : Nat
  minor : Nat
  patch : Nat
deriving DecidableEq, Repr

inductive OfflineAction where
  /-- `POST libraries/.../removeOffline` for one library
  (`trigger_offline_asset_removal_async`) -/
  | removeOfflineJob (libraryId : String) : OfflineAction
  /-- the `logging.fatal` emitted on a 403 response (line 791) -/
  | adminKeyFatalLog : OfflineAction
  /-- `delete_assets(offline_assets, True)` — a force-delete of the listed
  asset ids -/
  | forceDelete (assetIds : List String) : OfflineAction
deriving DecidableEq, Repr

/-- Embedding of `trigger_offline_asset_removal_async` (lines 774-793): one
POST per call; a 403 status logs a fatal configuration message and does
NOT raise (the call is not retried either), any other status goes through
`check_api_response`. -/
def trigger_offline_asset_removal_async (library_id : String) (status : Nat) :
    List OfflineAction × Except Exc Unit :=
  if status = 403 then
    ([OfflineAction.removeOfflineJob library_id, OfflineAction.adminKeyFatalLog],
     Except.ok ())
  else
    ([OfflineAction.removeOfflineJob library_id], check_api_response status)

/-- Embedding of `trigger_offline_asset_removal_pre_minor_version_116`
(lines 742-757): iterate over all libraries, triggering the asynchronous
removal job for each; an uncaught exception aborts the remaining
libraries. -/
def trigger_offline_asset_removal_pre_minor_version_116 :
    List (String × Nat) → List OfflineAction × Except Exc Unit
  | [] => ([], Except.ok ())
  | (lid, st) :: rest =>
      match trigger_offline_asset_removal_async lid st with
      | (acts, Except.ok ()) =>
          let r := trigger_offline_asset_removal_pre_minor_version_116 rest
          (acts ++ r.1, r.2)
      | (acts, Except.error e) => (acts, Except.error e)

/-- Embedding of `trigger_offline_asset_removal_since_minor_version_116`
(lines 685-711): fetch all trashed assets (`trashedAfter` epoch), filter
client-side for `isOffline`, and force-delete exactly the filtered subset
— issuing no delete call when no offline asset exists. -/
def trigger_offline_asset_removal_since_minor_version_116
    (trashed_assets : List Asset) : List OfflineAction :=
  let offline_assets := trashed_assets.filter (fun a => a.isOffline)
  if 0 < offline_assets.length then
    [OfflineAction.forceDelete (offline_assets.map (fun a => a.id))]
  else []

/-- Embedding of `trigger_offline_asset_removal` (lines 663-683): version
dispatch between the two implementations. -/
def trigger_offline_asset_removal (version : Version)
    (libraries : List (String × Nat)) (trashed_assets : List Asset) :
    List OfflineAction × Except Exc Unit :=
  if version.major = 1 ∧ version.minor < 116 then
    trigger_offline_asset_removal_pre_minor_version_116 libraries
  else
    (trigger_offline_asset_removal_since_minor_version_116 trashed_assets,
     Except.ok ())

theorem pre116_actions_no_delete (libraries : List (String × Nat)) :
    ∀ ids, OfflineAction.forceDelete ids
      ∉ (trigger_offline_asset_removal_pre_minor_version_116 libraries).1 := by
  induction libraries with
  | nil => intro ids h; simp [trigger_offline_asset_removal_pre_minor_version_116] at h
  | cons p rest ih =>
      intro ids h
      obtain ⟨lid, st⟩ := p
      by_cases h403 : st = 403
      · simp [trigger_offline_asset_removal_pre_minor_version_116,
          trigger_offline_asset_removal_async, h403] at h
        exact ih ids h
      · simp only [trigger_offline_asset_removal_pre_minor_version_116,
          trigger_offline_asset_removal_async, if_neg h403] at h
        rcases hc : check_api_response st with _ | e <;> rw [hc] at h
        · simp at h
        · simp at h
          exact ih ids h

theorem pre116_all_403 (libraries : List (String × Nat))
    (hall : ∀ p ∈ libraries, p.2 = 403) :
    trigger_offline_asset_removal_pre_minor_version_116 libraries
      = ((libraries.map (fun p =>
            [OfflineAction.removeOfflineJob p.1, OfflineAction.adminKeyFatalLog])).flatten,
         Except.ok ()) := by
  induction libraries with
  | nil => rfl
  | cons p rest ih =>
      obtain ⟨lid, st⟩ := p
      have h403 : st = 403 := hall (lid, st) (List.mem_cons_self _ _)
      subst h403
      simp only [trigger_offline_asset_removal_pre_minor_version_116,
        trigger_offline_asset_removal_async, if_pos rfl]
      rw [ih (fun q hq => hall q (List.mem_cons_of_mem _ hq))]
      simp

/-- C8: `trigger_offline_asset_removal` dispatches on the detected server
version.  For major 1 and minor below 116 it runs the asynchronous
per-library admin job: one `removeOffline` POST per library, a 403
response producing a fatal configuration log and no exception (and no
retry — still exactly one POST per library), and no delete call ever
issued on this path.  For any version at or above 1.116 it instead
force-deletes exactly the `isOffline`-filtered subset of the trashed
assets, deleting nothing when no offline asset exists. -/
theorem trigger_offline_asset_removal_spec (v : Version)
    (libraries : List (String × Nat)) (trashed : List Asset) :
    (v.major = 1 → v.minor < 116 →
       ((∀ p ∈ libraries, p.2 = 403) →
          trigger_offline_asset_removal v libraries trashed
            = ((libraries.map (fun p =>
                  [OfflineAction.removeOfflineJob p.1,
                   OfflineAction.adminKeyFatalLog])).flatten,
               Except.ok ())) ∧
       (∀ ids, OfflineAction.forceDelete ids
          ∉ (trigger_offline_asset_removal v libraries trashed).1)) ∧
    ((v.major = 1 ∧ 116 ≤ v.minor) ∨ 1 < v.major →
       trigger_offline_asset_removal v libraries trashed
         = (trigger_offline_asset_removal_since_minor_version_116 trashed,
            Except.ok ()) ∧
       (0 < (trashed.filter (fun a => a.isOffline)).length →
          (trigger_offline_asset_removal v libraries trashed).1
            = [OfflineAction.forceDelete
                ((trashed.filter (fun a => a.isOffline)).map (fun a => a.id))]) ∧
       (trashed.filter (fun a => a.isOffline) = [] →
          (trigger_offline_asset_removal v libraries trashed).1 = [])) := by
  constructor
  · intro h1 h2
    have hdis : trigger_offline_asset_removal v libraries trashed
        = trigger_offline_asset_removal_pre_minor_version_116 libraries := by
      simp [trigger_offline_asset_removal, h1, h2]
    constructor
    · intro hall
      rw [hdis]
      exact pre116_all_403 libraries hall
    · intro ids
      rw [hdis]
      exact pre116_actions_no_delete libraries ids
  · intro hge
    have hcond : ¬(v.major = 1 ∧ v.minor < 116) := by
      rcases hge with ⟨hm, hn⟩ | hm <;> omega
    have hdis : trigger_offline_asset_removal v libraries trashed
        = (trigger_offline_asset_removal_since_minor_version_116 trashed,
           Except.ok ()) := by
      simp [trigger_offline_asset_removal, hcond]
    refine ⟨hdis, ?_, ?_⟩
    · intro hpos
      rw [hdis]
      simp [trigger_offline_asset_removal_since_minor_version_116, hpos]
    · intro hempty
      rw [hdis]
      simp [trigger_offline_asset_removal_since_minor_version_116, hempty]

/-- C8 witness: the dispatch theorem applied at version 1.115 with two
libraries answering 403 (two job POSTs, two fatal logs, no delete, no
exception) and at version 1.116 with one offline asset among two trashed
ones (one force-delete of exactly that asset). -/
theorem trigger_offline_asset_removal_spec_witness :
    (trigger_offline_asset_removal ⟨1, 115, 0⟩ [("L1", 403), ("L2", 403)] []
      = ([OfflineAction.removeOfflineJob "L1", OfflineAction.adminKeyFatalLog,
          OfflineAction.removeOfflineJob "L2", OfflineAction.adminKeyFatalLog],
         Except.ok ())) ∧
    (trigger_offline_asset_removal ⟨1, 116, 0⟩ []
        [⟨"t1", "/t/1.jpg", 1, true⟩, ⟨"t2", "/t/2.jpg", 2, false⟩]).1
      = [OfflineAction.forceDelete ["t1"]] ∧
    (trigger_offline_asset_removal ⟨1, 120, 0⟩ []
        [⟨"t2", "/t/2.jpg", 2, false⟩]).1 = [] :=
  ⟨((trigger_offline_asset_removal_spec ⟨1, 115, 0⟩ [("L1", 403), ("L2", 403)] []).1
      rfl (by decide)).1 (by decide),
   ((trigger_offline_asset_removal_spec ⟨1, 116, 0⟩ []
        [⟨"t1", "/t/1.jpg", 1, true⟩, ⟨"t2", "/t/2.jpg", 2, false⟩]).2
      (Or.inl ⟨rfl, by decide⟩)).2.1 (by decide),
   ((trigger_offline_asset_removal_spec ⟨1, 120, 0⟩ []
        [⟨"t2", "/t/2.jpg", 2, false⟩]).2
      (Or.inl ⟨rfl, by decide⟩)).2.2 (by decide)⟩


/-! ## Startup checks and exit codes (lines 1146-1236)

After argument parsing the script, in order: resolves the API key and exits
with code 1 when it is `None` (lines 1154-1157); exits with code 1 when
both `--comments-and-likes-enabled` and `--comments-and-likes-disabled`
were passed (lines 1174-1176); fetches the server version (a GET, with a
GET fallback to the legacy endpoint on 404 — both non-mutating) and exits
with code 1 when `major == 1 and minor < 106` (lines 1229-1233); only then
issues its first possibly-mutating call (`sync_library`, a POST, when
`--sync-library` was passed, line 1236, followed by the album
reconciliation). -/

inductive ApiCall where
  | get (endpoint : String) : ApiCall
  | post (endpoint : String) : ApiCall
deriving DecidableEq, Repr

/-- Whether a call mutates remote state: GETs are reads, POSTs mutate. -/
def ApiCall.mutating : ApiCall → Bool
  | ApiCall.get _ => false
  | ApiCall.post _ => true

inductive StartupOutcome where
  | exitCode (code : Nat) : StartupOutcome
  | proceed : StartupOutcome
deriving DecidableEq, Repr

/-- Embedding of `determine_api_key` (lines 183-206): `literal` returns the
source as is, `file` returns the file contents (`read_file` modelled by a
total oracle; the `FileNotFoundError` it may raise is outside the
modelled domain), any other key type logs an error and returns `None`.
Note argparse restricts `--api-key-type` to {literal, file}. -/
def determine_api_key (read_file : String → String)
    (api_key_source : String) (key_type : String) : Option String :=
  if key_type = "literal" then some api_key_source
  else if key_type = "file" then some (read_file api_key_source)
  else none

/-- Embedding of the startup sequence (lines 1146-1236) up to and including
the first possibly-mutating remote call: the ordered trace of remote
calls issued and the resulting outcome (an explicit `sys.exit(1)`, or
proceeding into the reconciliation run). -/
def startup_trace (api_key : Option String)
    (comments_and_likes_enabled comments_and_likes_disabled : Bool)
    (version : Version) (library_to_sync : Option String) :
    List ApiCall × StartupOutcome :=
  -- if api_key is None: sys.exit(1)
  if api_key.isNone then ([], StartupOutcome.exitCode 1)
  -- if comments_and_likes_disabled and comments_and_likes_enabled: sys.exit(1)
  else if comments_and_likes_disabled && comments_and_likes_enabled then
    ([], StartupOutcome.exitCode 1)
  else
    -- version = fetch_server_version()
    let calls := [ApiCall.get "server/version"]
    -- if version['major'] == 1 and version['minor'] < 106: sys.exit(1)
    if version.major = 1 ∧ version.minor < 106 then (calls, StartupOutcome.exitCode 1)
    else
      match library_to_sync with
      | some lid =>
          (calls ++ [ApiCall.post ("libraries/" ++ lid ++ "/scan")],
           StartupOutcome.proceed)
      | none => (calls, StartupOutcome.proceed)

/-- C9: the startup sequence exits with code 1 exactly when the API key is
unresolved (`determine_api_key` gave `None`), both comments/likes flags
were passed, or the server version has major 1 and minor below 106; in
every exiting run the trace contains no mutating call (only the version
GET), so the exit happens before any mutating remote call.  In
particular version 1.105 aborts while 1.106 proceeds (third conjunct,
instantiated in the witness). -/
theorem startup_exit_conditions (api_key : Option String) (cle cld : Bool)
    (v : Version) (lib : Option String) :
    ((startup_trace api_key cle cld v lib).2 = StartupOutcome.exitCode 1
       ↔ (api_key = none ∨ (cld = true ∧ cle = true)
           ∨ (v.major = 1 ∧ v.minor < 106))) ∧
    ((startup_trace api_key cle cld v lib).2 = StartupOutcome.exitCode 1 →
       ∀ c ∈ (startup_trace api_key cle cld v lib).1, c.mutating = false) ∧
    ((startup_trace api_key cle cld v lib).2 = StartupOutcome.proceed
       ↔ ¬(api_key = none ∨ (cld = true ∧ cle = true)
           ∨ (v.major = 1 ∧ v.minor < 106))) := by
  by_cases hv : v.major = 1 ∧ v.minor < 106 <;>
    rcases api_key with _ | k <;>
    cases cle <;> cases cld <;>
    rcases lib with _ | lid <;>
    simp [startup_trace, hv, ApiCall.mutating]

/-- C9 witness: the exit-condition theorem applied at concrete inputs — an
unresolved API key exits with code 1 after a trace with no mutating call;
a resolved key with server version 1.105 exits with code 1; version
1.106 proceeds. -/
theorem startup_exit_conditions_witness :
    ((startup_trace none false false ⟨1, 200, 0⟩ (some "LIB")).2
        = StartupOutcome.exitCode 1) ∧
    (∀ c ∈ (startup_trace none false false ⟨1, 200, 0⟩ (some "LIB")).1,
        c.mutating = false) ∧
    ((startup_trace (some "key") false false ⟨1, 105, 0⟩ (some "LIB")).2
        = StartupOutcome.exitCode 1) ∧
    ((startup_trace (some "key") false false ⟨1, 106, 0⟩ (some "LIB")).2
        = StartupOutcome.proceed) :=
  ⟨(startup_exit_conditions none false false ⟨1, 200, 0⟩ (some "LIB")).1.mpr
      (Or.inl rfl),
   (startup_exit_conditions none false false ⟨1, 200, 0⟩ (some "LIB")).2.1
      ((startup_exit_conditions none false false ⟨1, 200, 0⟩ (some "LIB")).1.mpr
        (Or.inl rfl)),
   (startup_exit_conditions (some "key") false false ⟨1, 105, 0⟩ (some "LIB")).1.mpr
      (Or.inr (Or.inr (by decide))),
   (startup_exit_conditions (some "key") false false ⟨1, 106, 0⟩ (some "LIB")).2.2.mpr
      (by simp)⟩

end ImmichAutoAlbum
